import Mathlib

/-!
Shallow embedding of the carbonTravel distance calculator
(src/distance_calculator.py) together with proofs about its travel-mode
resolution, retry behaviour, fallback-origin strategy and per-row
processing.

Python strings are modelled as lists of characters (type Str).  The
external collaborators - the Google Maps distance-matrix client, the
Nominatim geocoder and the geodesic function of geopy - are modelled as
oracle functions passed in explicitly; calls that may be repeated are
indexed by the attempt number, so a single oracle describes the whole
observable behaviour of the external service during one lookup.
-/

set_option maxRecDepth 8000

namespace CarbonTravel

/-- Python strings, modelled as lists of characters. -/
abbrev Str := List Char

/-- Characters removed by the Python method str.strip (ASCII whitespace;
the Unicode cases are irrelevant to the synonym lists and the claims). -/
def is_py_space (c : Char) : Bool :=
  c == ' ' || c == '\t' || c == '\n' || c == '\r' || c == '\x0b' || c == '\x0c'

/-- Python str.strip: remove leading and trailing whitespace. -/
def py_strip (s : Str) : Str :=
  ((s.dropWhile is_py_space).reverse.dropWhile is_py_space).reverse

/-- Python str.lower (ASCII case folding, which covers every string the
synonym matching of the source compares against). -/
def py_lower (s : Str) : Str :=
  s.map Char.toLower

/-- Python str.split applied with separator given by a comma, as in line 138
of src/distance_calculator.py: the empty string splits to one empty field. -/
def split_on_comma : Str → List Str
  | [] => [[]]
  | c :: rest =>
    let r := split_on_comma rest
    if c = ',' then [] :: r
    else
      match r with
      | [] => [[c]]
      | t :: ts => (c :: t) :: ts

/-- Python substring test: py_contains needle hay models the expression
needle in hay. -/
def py_contains (needle : Str) : Str → Bool
  | [] => needle.isEmpty
  | c :: rest => needle.isPrefixOf (c :: rest) || py_contains needle rest

/-- The travel modes the script can select (the Python variable
selected_mode holds one of these strings, or None, modelled as Option). -/
inductive TravelMode
  | driving
  | transit
  | walking
  | bicycling
  | flight
deriving DecidableEq

/-- The mode string passed to the distance-matrix call for each selected
mode (the literal values assigned to selected_mode in lines 145-157). -/
def mode_token : TravelMode → Str
  | .driving => "driving".data
  | .transit => "transit".data
  | .walking => "walking".data
  | .bicycling => "bicycling".data
  | .flight => "flight".data

/-- Line 102: car_synonyms = ["rental car", "personal car", "car"]. -/
def car_synonyms : List Str :=
  ["rental car".data, "personal car".data, "car".data]

/-- Line 103: flight_synonyms = ["plane", "flight", "airplane"]. -/
def flight_synonyms : List Str :=
  ["plane".data, "flight".data, "airplane".data]

/-- The public-transport synonym list written inline in line 150. -/
def transit_synonyms : List Str :=
  ["public transport".data, "bus".data, "train".data, "subway".data]

/-- Lines 137-138: lower-case the raw travel-method text, split it on
commas, strip each item and keep the non-empty ones. -/
def travel_modes_of (travel_methods_raw : Str) : List Str :=
  let travel_methods := py_lower travel_methods_raw
  ((split_on_comma travel_methods).map py_strip).filter (fun item => !item.isEmpty)

/-- The flight-synonym test of line 144, applied to one token:
"plane" in mode or "flight" in mode or "airplane" in mode. -/
def has_flight_synonym (mode : Str) : Bool :=
  py_contains "plane".data mode || py_contains "flight".data mode ||
    py_contains "airplane".data mode

/-- Lines 142-161: choose selected_mode from the token list.  none models
the Python value None (the mode stays unresolved and the row is skipped). -/
def select_mode (travel_modes : List Str) : Option TravelMode :=
  if 0 < travel_modes.length then
    if 1 < travel_modes.length ∧ travel_modes.any has_flight_synonym = true then
      some TravelMode.flight
    else if travel_modes.length = 1 then
      let last_mode := travel_modes.headD []
      if car_synonyms.any (fun mode => py_contains mode last_mode) = true then
        some TravelMode.driving
      else if transit_synonyms.any (fun mode => py_contains mode last_mode) = true then
        some TravelMode.transit
      else if py_contains "walking".data last_mode = true then
        some TravelMode.walking
      else if py_contains "bicycling".data last_mode = true then
        some TravelMode.bicycling
      else if flight_synonyms.any (fun mode => py_contains mode last_mode) = true then
        some TravelMode.flight
      else
        none
    else
      none
  else
    none

/-- Modelled from the spec, section 4.1 step 4: the single-token synonym
table as the spec words it, for comparison with select_mode. -/
def resolve_single_token_spec (t : Str) : Option TravelMode :=
  if car_synonyms.any (fun mode => py_contains mode t) = true then
    some TravelMode.driving
  else if transit_synonyms.any (fun mode => py_contains mode t) = true then
    some TravelMode.transit
  else if py_contains "walking".data t = true then
    some TravelMode.walking
  else if py_contains "bicycling".data t = true then
    some TravelMode.bicycling
  else if flight_synonyms.any (fun mode => py_contains mode t) = true then
    some TravelMode.flight
  else
    none

/-- Rounding to two decimals, as Python round(x, 2).  Python rounds exact
half values to even; the two agree everywhere a claim evaluates it. -/
def round2 (x : ℚ) : ℚ :=
  (round (x * 100) : ℚ) / 100

/-- One invocation of gmaps.distance_matrix, as observed by the caller:
either a response whose single element carries a status string and the
distance (metres) and duration (seconds) values, or a raised
googlemaps ApiError, or any other raised exception. -/
inductive MatrixCall
  | result (status : Str) (distance_value : ℚ) (duration_value : ℚ)
  | api_error
  | exn
deriving DecidableEq

/-- The Google Maps client handle: the observable behaviour of
gmaps.distance_matrix, keyed by origin, destination, mode and the number
of earlier invocations for that triple within one calculate_distance
call (the retries counter). -/
abbrev GMaps := Str → Str → Str → ℕ → MatrixCall

/-- What calculate_distance returns together with the resources it
consumed: the distance and duration (none models the Python value None),
the number of distance-matrix invocations made and the number of
time.sleep calls performed. -/
structure MatrixOutcome where
  distance : Option ℚ
  duration : Option ℚ
  attempts : ℕ
  sleeps : ℕ
deriving DecidableEq

/-- The while loop of calculate_distance (lines 27-58).  fuel is
max_retries - retries, so fuel = 0 is the loop exit of line 57-58, which
returns None, None.  Within one iteration: status OK returns the rounded
kilometre and hour values, status ZERO_RESULTS returns None, None at
once, any other status and ApiError sleep and retry, and any other
exception returns None, None at once. -/
def calculate_distance_go (orc : ℕ → MatrixCall) : ℕ → ℕ → MatrixOutcome
  | _retries, 0 => ⟨none, none, 0, 0⟩
  | retries, fuel + 1 =>
    match orc retries with
    | .result status distance_value duration_value =>
      if status = "OK".data then
        ⟨some (round2 (distance_value / 1000)), some (round2 (duration_value / 3600)), 1, 0⟩
      else if status = "ZERO_RESULTS".data then
        ⟨none, none, 1, 0⟩
      else
        let r := calculate_distance_go orc (retries + 1) fuel
        ⟨r.distance, r.duration, r.attempts + 1, r.sleeps + 1⟩
    | .api_error =>
      let r := calculate_distance_go orc (retries + 1) fuel
      ⟨r.distance, r.duration, r.attempts + 1, r.sleeps + 1⟩
    | .exn => ⟨none, none, 1, 0⟩

/-- calculate_distance (lines 25-58).  The call sites of the script use
the default max_retries = 3. -/
def calculate_distance (gmaps : GMaps) (origin destination mode : Str)
    (max_retries : ℕ) : MatrixOutcome :=
  calculate_distance_go (gmaps origin destination mode) 0 max_retries

/-- One iteration of the geocoding loop in calculate_flight_distance, as
observed by the caller: both locations resolve to coordinates, or one or
both come back unresolved (the Python falsy branch of line 75), or some
exception is raised during the iteration. -/
inductive FlightAttempt
  | located (origin_coords destination_coords : ℚ × ℚ)
  | geocodeMiss
  | raised
deriving DecidableEq

/-- The Nominatim geolocator, keyed by origin, destination and the
number of earlier iterations of the loop for that pair (the retries
counter of calculate_flight_distance). -/
abbrev GeoOracle := Str → Str → ℕ → FlightAttempt

/-- The geopy geodesic function: great-circle kilometres between two
coordinate pairs.  It is an external library call, so it is a parameter
of the model. -/
abbrev Geodesic := ℚ × ℚ → ℚ × ℚ → ℚ

/-- What calculate_flight_distance returns together with the resources
it consumed.  The distance is always a number: the function never
returns None (on exhaustion line 84 returns the literal 0). -/
structure FlightOutcome where
  distance : ℚ
  attempts : ℕ
  sleeps : ℕ
deriving DecidableEq

/-- The while loop of calculate_flight_distance (lines 64-84).  fuel is
max_retries - retries; fuel = 0 is the loop exit, which returns 0.  A
successful pair of geocodes returns the rounded geodesic distance; an
unresolved location or a raised exception sleeps and retries. -/
def calculate_flight_go (gd : Geodesic) (orc : ℕ → FlightAttempt) : ℕ → ℕ → FlightOutcome
  | _retries, 0 => ⟨0, 0, 0⟩
  | retries, fuel + 1 =>
    match orc retries with
    | .located origin_coords destination_coords =>
      ⟨round2 (gd origin_coords destination_coords), 1, 0⟩
    | .geocodeMiss =>
      let r := calculate_flight_go gd orc (retries + 1) fuel
      ⟨r.distance, r.attempts + 1, r.sleeps + 1⟩
    | .raised =>
      let r := calculate_flight_go gd orc (retries + 1) fuel
      ⟨r.distance, r.attempts + 1, r.sleeps + 1⟩

/-- calculate_flight_distance (lines 60-84).  The gmaps argument is part
of the Python signature but the body never reads it: geocoding goes
through the Nominatim geolocator constructed inside the function.  The
call sites of the script use the default max_retries = 3. -/
def calculate_flight_distance (gmaps : GMaps) (gd : Geodesic) (geolocator : GeoOracle)
    (origin destination : Str) (max_retries : ℕ) : FlightOutcome :=
  let _ := gmaps
  calculate_flight_go gd (geolocator origin destination) 0 max_retries

/-- One input row of process_excel_file, after the per-field
str(row[...]).strip() reads of lines 110-115. -/
structure RowInput where
  origin_city : Str
  origin_state : Str
  destination_city : Str
  destination_state : Str
  destination_country : Str
  travel_methods_raw : Str

/-- The observable outcome of processing one row: the value written to
the Calculated_Distance_km cell (none models no write at all, some none
models writing the Python value None, some (some d) models writing the
number d), and the provider calls made on the way. -/
structure RowOutcome where
  written : Option (Option ℚ)
  matrix_attempts : ℕ
  flight_attempts : ℕ
  fallback_tried : List Str
deriving DecidableEq

/-- Lines 117-119: origin = origin_city, or origin_city, origin_state
when the state is non-blank. -/
def build_origin (origin_city origin_state : Str) : Str :=
  if origin_state ≠ [] ∧ py_strip origin_state ≠ [] then
    origin_city ++ ", ".data ++ origin_state
  else
    origin_city

/-- Lines 121-125: destination = city, state for a non-blank state when
the country is the United States (case-insensitively), else city,
country for a non-blank country, else the bare city. -/
def build_destination (destination_city destination_state destination_country : Str) : Str :=
  if py_lower destination_country = "united states".data ∧
      destination_state ≠ [] ∧ py_strip destination_state ≠ [] then
    destination_city ++ ", ".data ++ destination_state
  else if destination_country ≠ [] ∧ py_strip destination_country ≠ [] then
    destination_city ++ ", ".data ++ destination_country
  else
    destination_city

/-- Lines 127-128: substitute the fixed fallback city when the built
origin is blank. -/
def default_origin (origin : Str) : Str :=
  if py_strip origin = [] then "Binghamton, NY".data else origin

/-- The effective origin string a row is processed with. -/
def effective_origin (row : RowInput) : Str :=
  default_origin (build_origin row.origin_city row.origin_state)

/-- The effective destination string a row is processed with. -/
def effective_destination (row : RowInput) : Str :=
  build_destination row.destination_city row.destination_state row.destination_country

/-- Line 169: new_origins = ["EWR Airport, Newark, NJ", "JFK Airport, New York, NY"]. -/
def new_origins : List Str :=
  ["EWR Airport, Newark, NJ".data, "JFK Airport, New York, NY".data]

/-- The for loop over new_origins with its else clause (lines 170-177).
Each iteration assigns distance = calculate_flight_distance(...) and
breaks when that value is not None; if the loop finishes without a
break, the else clause assigns distance = 0.  Returns the final
distance value, the flight-lookup attempts made and the origins tried. -/
def fallback_loop (gmaps : GMaps) (gd : Geodesic) (geolocator : GeoOracle)
    (destination : Str) : List Str → Option ℚ × ℕ × List Str
  | [] => (some 0, 0, [])
  | new_origin :: rest =>
    let r := calculate_flight_distance gmaps gd geolocator new_origin destination 3
    let distance : Option ℚ := some r.distance
    if distance.isSome then
      (distance, r.attempts, [new_origin])
    else
      let tail := fallback_loop gmaps gd geolocator destination rest
      (tail.1, tail.2.1 + r.attempts, new_origin :: tail.2.2)

/-- The per-row body of process_excel_file (lines 109-184): build the
effective origin and destination, skip on blank destination or blank
travel-method text, resolve the mode, dispatch to the flight lookup or
to the distance-matrix lookup with the non-domestic fallback, and write
the resulting distance to the row. -/
def process_row (gmaps : GMaps) (gd : Geodesic) (geolocator : GeoOracle)
    (row : RowInput) : RowOutcome :=
  let origin := effective_origin row
  let destination := effective_destination row
  if py_strip destination = [] then
    ⟨none, 0, 0, []⟩
  else if py_strip row.travel_methods_raw = [] then
    ⟨none, 0, 0, []⟩
  else
    match select_mode (travel_modes_of row.travel_methods_raw) with
    | none => ⟨none, 0, 0, []⟩
    | some selected_mode =>
      if selected_mode = TravelMode.flight then
        let r := calculate_flight_distance gmaps gd geolocator origin destination 3
        ⟨some (some r.distance), 0, r.attempts, []⟩
      else
        let g := calculate_distance gmaps origin destination (mode_token selected_mode) 3
        if g.distance = none ∧ py_lower row.destination_country ≠ "united states".data then
          let fb := fallback_loop gmaps gd geolocator destination new_origins
          ⟨some fb.1, g.attempts, fb.2.1, fb.2.2⟩
        else
          ⟨some g.distance, g.attempts, 0, []⟩

/-- The row loop of process_excel_file: every row is processed in order
and independently of the others. -/
def process_excel_rows (gmaps : GMaps) (gd : Geodesic) (geolocator : GeoOracle)
    (rows : List RowInput) : List RowOutcome :=
  rows.map (process_row gmaps gd geolocator)

/-- A distance-matrix invocation outcome the script retries: a response
status other than OK and ZERO_RESULTS, or an ApiError. -/
def transient : MatrixCall → Prop
  | .result status _ _ => status ≠ "OK".data ∧ status ≠ "ZERO_RESULTS".data
  | .api_error => True
  | .exn => False

/-- A geocoding-loop iteration that does not produce coordinates. -/
def non_located : FlightAttempt → Prop
  | .located _ _ => False
  | .geocodeMiss => True
  | .raised => True

/-- When every iteration of the geocoding loop fails to produce
coordinates, the loop runs its full fuel, sleeping each time, and ends
with the sentinel distance 0. -/
theorem calculate_flight_go_all_fail (gd : Geodesic) (orc : ℕ → FlightAttempt)
    (h : ∀ i, non_located (orc i)) :
    ∀ fuel retries, calculate_flight_go gd orc retries fuel = ⟨0, fuel, fuel⟩ := by
  intro fuel
  induction fuel with
  | zero => intro retries; rfl
  | succ n ih =>
    intro retries
    have hr := h retries
    cases horc : orc retries with
    | located oc dc => rw [horc] at hr; exact hr.elim
    | geocodeMiss => simp [calculate_flight_go, horc, ih]
    | raised => simp [calculate_flight_go, horc, ih]

/-- When every distance-matrix invocation is transient, the retry loop
runs its full fuel, sleeping each time, and ends with None, None. -/
theorem calculate_distance_go_all_transient (orc : ℕ → MatrixCall)
    (h : ∀ i, transient (orc i)) :
    ∀ fuel retries, calculate_distance_go orc retries fuel = ⟨none, none, fuel, fuel⟩ := by
  intro fuel
  induction fuel with
  | zero => intro retries; rfl
  | succ n ih =>
    intro retries
    have hr := h retries
    cases horc : orc retries with
    | result status dv tv =>
      rw [horc] at hr
      simp [calculate_distance_go, horc, hr.1, hr.2, ih]
    | api_error => simp [calculate_distance_go, horc, ih]
    | exn => rw [horc] at hr; exact hr.elim

/-- C3 counterexample: with a geolocator that never resolves the
locations, calculate_flight_distance makes 3 geocoding attempts and
sleeps 3 times before returning the sentinel 0 - it does not return
after exactly one attempt without sleeping, so a geocoding failure is
not treated as a terminal no-retry outcome. -/
theorem geocode_failure_retried_counterexample :
    calculate_flight_distance (fun _ _ _ _ => MatrixCall.api_error) (fun _ _ => 0)
        (fun _ _ _ => FlightAttempt.geocodeMiss) "New York".data "London".data 3
      = ⟨0, 3, 3⟩
    ∧ (calculate_flight_distance (fun _ _ _ _ => MatrixCall.api_error) (fun _ _ => 0)
        (fun _ _ _ => FlightAttempt.geocodeMiss) "New York".data "London".data 3).attempts ≠ 1
    ∧ (calculate_flight_distance (fun _ _ _ _ => MatrixCall.api_error) (fun _ _ => 0)
        (fun _ _ _ => FlightAttempt.geocodeMiss) "New York".data "London".data 3).sleeps ≠ 0 := by
  refine ⟨by decide, by decide, by decide⟩

/-- C3 amended: a geocoding failure is retryable, not terminal - each
iteration whose geocoding leaves one or both locations unresolved
sleeps the retry delay and retries, up to max_retries attempts in
total, and on exhaustion the call returns the sentinel 0. -/
theorem geocode_failure_is_retried (gmaps : GMaps) (gd : Geodesic)
    (geolocator : GeoOracle) (origin destination : Str) (max_retries : ℕ)
    (h : ∀ i, geolocator origin destination i = FlightAttempt.geocodeMiss) :
    calculate_flight_distance gmaps gd geolocator origin destination max_retries
      = ⟨0, max_retries, max_retries⟩ :=
  calculate_flight_go_all_fail gd _ (fun i => by rw [h i]; trivial) max_retries 0

/-- Witness for geocode_failure_is_retried at a concrete geolocator. -/
theorem geocode_failure_is_retried_witness :
    calculate_flight_distance (fun _ _ _ _ => MatrixCall.api_error) (fun _ _ => 0)
        (fun _ _ _ => FlightAttempt.geocodeMiss) "New York".data "London".data 3
      = ⟨0, 3, 3⟩ :=
  geocode_failure_is_retried _ _ _ _ _ 3 (fun _ => rfl)

/-- C4: for every origin, destination and mode, a provider that returns
a transient outcome (a status other than OK and ZERO_RESULTS, or an
ApiError) on every invocation makes calculate_distance with the default
max_retries = 3 perform exactly 3 attempts, sleep after each failed
attempt, and return the Exhausted outcome None, None instead of raising. -/
theorem retry_exhaustion_three_attempts (gmaps : GMaps) (origin destination mode : Str)
    (h : ∀ i, transient (gmaps origin destination mode i)) :
    calculate_distance gmaps origin destination mode 3 = ⟨none, none, 3, 3⟩ :=
  calculate_distance_go_all_transient _ h 3 0

/-- Witness for retry_exhaustion_three_attempts at a provider stub that
always raises ApiError. -/
theorem retry_exhaustion_three_attempts_witness :
    calculate_distance (fun _ _ _ _ => MatrixCall.api_error)
        "New York".data "Boston".data "driving".data 3
      = ⟨none, none, 3, 3⟩ :=
  retry_exhaustion_three_attempts _ _ _ _ (fun _ => trivial)

/-- C5: a first invocation whose element status is ZERO_RESULTS makes
calculate_distance return None, None immediately: exactly one attempt,
no sleep, and no further retries. -/
theorem noroute_short_circuit (gmaps : GMaps) (origin destination mode : Str)
    (dv tv : ℚ)
    (h : gmaps origin destination mode 0 = MatrixCall.result "ZERO_RESULTS".data dv tv) :
    calculate_distance gmaps origin destination mode 3 = ⟨none, none, 1, 0⟩ := by
  show calculate_distance_go (gmaps origin destination mode) 0 (2 + 1) = ⟨none, none, 1, 0⟩
  simp +decide [calculate_distance_go, h]

/-- Witness for noroute_short_circuit at a provider stub that reports
ZERO_RESULTS on the first call. -/
theorem noroute_short_circuit_witness :
    calculate_distance (fun _ _ _ _ => MatrixCall.result "ZERO_RESULTS".data 0 0)
        "New York".data "Tokyo".data "driving".data 3
      = ⟨none, none, 1, 0⟩ :=
  noroute_short_circuit _ _ _ _ 0 0 rfl

/-- C10: calculate_flight_distance never reads the gmaps argument - for
any two Google Maps clients and otherwise identical inputs it returns
the same outcome, so flight distances cannot depend on the configured
mapping client or its key. -/
theorem flight_distance_ignores_gmaps (g1 g2 : GMaps) (gd : Geodesic)
    (geolocator : GeoOracle) (origin destination : Str) (max_retries : ℕ) :
    calculate_flight_distance g1 gd geolocator origin destination max_retries
      = calculate_flight_distance g2 gd geolocator origin destination max_retries := rfl

/-- C6: when the raw travel-method text splits into more than one
trimmed non-empty token, the resolver yields flight exactly when some
token contains a flight synonym, and otherwise leaves the mode
unresolved, in which case the row is processed with no provider call
and no write to the distance cell. -/
theorem flight_tie_break (raw : Str) (h : 1 < (travel_modes_of raw).length) :
    (select_mode (travel_modes_of raw)
      = if (travel_modes_of raw).any has_flight_synonym = true then
          some TravelMode.flight
        else none)
    ∧ ((travel_modes_of raw).any has_flight_synonym = false →
        ∀ (gmaps : GMaps) (gd : Geodesic) (geolocator : GeoOracle)
          (oc os dc ds dk : Str),
          process_row gmaps gd geolocator ⟨oc, os, dc, ds, dk, raw⟩ = ⟨none, 0, 0, []⟩) := by
  have h0 : 0 < (travel_modes_of raw).length := Nat.lt_trans Nat.zero_lt_one h
  have h1 : (travel_modes_of raw).length ≠ 1 := by omega
  constructor
  · by_cases ha : (travel_modes_of raw).any has_flight_synonym = true
    · simp [select_mode, h0, h, ha]
    · simp [select_mode, h0, h1, ha]
  · intro ha gmaps gd geolocator oc os dc ds dk
    have hsel : select_mode (travel_modes_of raw) = none := by
      simp [select_mode, h0, h1, ha]
    by_cases hd : py_strip (effective_destination ⟨oc, os, dc, ds, dk, raw⟩) = []
    · simp [process_row, hd]
    · by_cases hm : py_strip raw = []
      · simp [process_row, hd, hm]
      · simp [process_row, hd, hm, hsel]

/-- Witness for flight_tie_break at the raw text car, bus: two tokens,
no flight synonym, so the mode is unresolved and the row makes no call. -/
theorem flight_tie_break_witness :
    (select_mode (travel_modes_of "car, bus".data)
      = if (travel_modes_of "car, bus".data).any has_flight_synonym = true then
          some TravelMode.flight
        else none)
    ∧ process_row (fun _ _ _ _ => MatrixCall.api_error) (fun _ _ => 0)
        (fun _ _ _ => FlightAttempt.geocodeMiss)
        ⟨"A".data, "".data, "B".data, "".data, "".data, "car, bus".data⟩
      = ⟨none, 0, 0, []⟩ :=
  ⟨(flight_tie_break "car, bus".data (by decide)).1,
    (flight_tie_break "car, bus".data (by decide)).2 (by decide) _ _ _ _ _ _ _ _⟩

/-- C7: when the raw travel-method text yields exactly one trimmed
non-empty token, the resolver agrees with the single-token synonym
table written in the spec (car synonyms first, then public transport,
walking, bicycling, flight synonyms, else unresolved). -/
theorem single_token_mapping (raw t : Str) (h : travel_modes_of raw = [t]) :
    select_mode (travel_modes_of raw) = resolve_single_token_spec t := by
  rw [h]
  simp [select_mode, resolve_single_token_spec]

/-- Witness for single_token_mapping at the raw text public transport. -/
theorem single_token_mapping_witness :
    select_mode (travel_modes_of "public transport".data)
      = resolve_single_token_spec "public transport".data :=
  single_token_mapping _ _ (by decide)

/-- C8: the effective origin is the fixed fallback city whenever both
origin fields are blank, and the effective destination is city, state
for a domestic country with non-blank state, city, country for a
non-blank country otherwise, and the bare city when neither applies. -/
theorem resolved_route_formatting (row : RowInput) :
    (py_strip row.origin_city = [] → py_strip row.origin_state = [] →
      effective_origin row = "Binghamton, NY".data)
    ∧ (py_lower row.destination_country = "united states".data →
        py_strip row.destination_state ≠ [] →
        effective_destination row
          = row.destination_city ++ ", ".data ++ row.destination_state)
    ∧ (py_strip row.destination_country ≠ [] →
        ¬(py_lower row.destination_country = "united states".data ∧
            py_strip row.destination_state ≠ []) →
        effective_destination row
          = row.destination_city ++ ", ".data ++ row.destination_country)
    ∧ (py_strip row.destination_country = [] →
        ¬(py_lower row.destination_country = "united states".data ∧
            py_strip row.destination_state ≠ []) →
        effective_destination row = row.destination_city) := by
  refine ⟨?_, ?_, ?_, ?_⟩
  · intro h1 h2
    simp [effective_origin, build_origin, default_origin, h1, h2]
  · intro h1 h2
    have hds : row.destination_state ≠ [] := fun e => h2 (by rw [e]; rfl)
    simp [effective_destination, build_destination, h1, h2, hds]
  · intro h1 h2
    have hdk : row.destination_country ≠ [] := fun e => h1 (by rw [e]; rfl)
    have hc1 : ¬(py_lower row.destination_country = "united states".data ∧
        row.destination_state ≠ [] ∧ py_strip row.destination_state ≠ []) := by
      rintro ⟨ha, _, hc⟩
      exact h2 ⟨ha, hc⟩
    simp [effective_destination, build_destination, hc1, hdk, h1]
  · intro h1 h2
    have hc1 : ¬(py_lower row.destination_country = "united states".data ∧
        row.destination_state ≠ [] ∧ py_strip row.destination_state ≠ []) := by
      rintro ⟨ha, _, hc⟩
      exact h2 ⟨ha, hc⟩
    simp [effective_destination, build_destination, hc1, h1]

/-- Witness for resolved_route_formatting: all four formatting cases at
concrete rows. -/
theorem resolved_route_formatting_witness :
    effective_origin ⟨"".data, "".data, "Paris".data, "".data, "France".data, "flight".data⟩
      = "Binghamton, NY".data
    ∧ effective_destination
        ⟨"A".data, "".data, "Albany".data, "NY".data, "United States".data, "car".data⟩
      = "Albany".data ++ ", ".data ++ "NY".data
    ∧ effective_destination
        ⟨"A".data, "".data, "Paris".data, "".data, "France".data, "car".data⟩
      = "Paris".data ++ ", ".data ++ "France".data
    ∧ effective_destination
        ⟨"A".data, "".data, "Paris".data, "".data, "".data, "car".data⟩
      = "Paris".data :=
  ⟨(resolved_route_formatting _).1 (by decide) (by decide),
    (resolved_route_formatting _).2.1 (by decide) (by decide),
    (resolved_route_formatting _).2.2.1 (by decide) (by decide),
    (resolved_route_formatting _).2.2.2 (by decide) (by decide)⟩

/-- C9: a row whose destination fields are all blank, or whose raw
travel-method text is blank, is skipped before any provider call: the
outcome carries no write, zero distance-matrix attempts and zero
geocoding attempts, and the remaining rows of the batch are processed
unchanged. -/
theorem skip_blank_rows (gmaps : GMaps) (gd : Geodesic) (geolocator : GeoOracle)
    (row : RowInput)
    (h : (py_strip row.destination_city = [] ∧ py_strip row.destination_state = []
            ∧ py_strip row.destination_country = [])
         ∨ py_strip row.travel_methods_raw = []) :
    process_row gmaps gd geolocator row = ⟨none, 0, 0, []⟩
    ∧ ∀ rows, process_excel_rows gmaps gd geolocator (row :: rows)
        = ⟨none, 0, 0, []⟩ :: process_excel_rows gmaps gd geolocator rows := by
  have hmain : process_row gmaps gd geolocator row = ⟨none, 0, 0, []⟩ := by
    rcases h with ⟨h1, h2, h3⟩ | hm
    · have hdest : effective_destination row = row.destination_city := by
        simp [effective_destination, build_destination, h2, h3]
      simp [process_row, hdest, h1]
    · by_cases hd : py_strip (effective_destination row) = []
      · simp [process_row, hd]
      · simp [process_row, hd, hm]
  exact ⟨hmain, fun rows => by
    simp only [process_excel_rows, List.map_cons, hmain]⟩

/-- Witness for skip_blank_rows: a row with blank travel-method text is
skipped and the next row of the batch is still processed. -/
theorem skip_blank_rows_witness :
    process_row (fun _ _ _ _ => MatrixCall.api_error) (fun _ _ => 0)
        (fun _ _ _ => FlightAttempt.geocodeMiss)
        ⟨"A".data, "".data, "Boston".data, "MA".data, "United States".data, "".data⟩
      = ⟨none, 0, 0, []⟩
    ∧ process_excel_rows (fun _ _ _ _ => MatrixCall.api_error) (fun _ _ => 0)
        (fun _ _ _ => FlightAttempt.geocodeMiss)
        (⟨"A".data, "".data, "Boston".data, "MA".data, "United States".data, "".data⟩
          :: [⟨"A".data, "".data, "B".data, "".data, "".data, "walking".data⟩])
      = ⟨none, 0, 0, []⟩
          :: process_excel_rows (fun _ _ _ _ => MatrixCall.api_error) (fun _ _ => 0)
              (fun _ _ _ => FlightAttempt.geocodeMiss)
              [⟨"A".data, "".data, "B".data, "".data, "".data, "walking".data⟩] :=
  ⟨(skip_blank_rows _ _ _ _ (Or.inr (by decide))).1,
    (skip_blank_rows _ _ _ _ (Or.inr (by decide))).2 _⟩

/-- C1 counterexample: a ground-mode row (car, so driving) with the
non-domestic destination Lyon, France, whose ground lookup reports
ZERO_RESULTS and whose fallback geocoding fails on every attempt, gets
the value 0 written to its distance cell - not an absent value, because
calculate_flight_distance returns the sentinel 0 rather than None, so
the is-not-None check of the fallback loop always breaks at the first
alternate origin. -/
theorem ground_failure_records_zero_counterexample :
    process_row (fun _ _ _ _ => MatrixCall.result "ZERO_RESULTS".data 0 0)
        (fun _ _ => 0) (fun _ _ _ => FlightAttempt.geocodeMiss)
        ⟨"Binghamton".data, "NY".data, "Lyon".data, "".data, "France".data, "car".data⟩
      = ⟨some (some 0), 1, 3, ["EWR Airport, Newark, NJ".data]⟩ := by decide

/-- C1 amended: flight-mode lookup failure after exhausting retries
records 0; ground-mode lookup failure records an absent value exactly
when no fallback applies (domestic destination); for a non-domestic
destination the failing fallback records 0, not an absent value. -/
theorem failure_asymmetry_amended (gmaps : GMaps) (gd : Geodesic)
    (geolocator : GeoOracle) (row : RowInput)
    (hdest : py_strip (effective_destination row) ≠ [])
    (hmeth : py_strip row.travel_methods_raw ≠ []) :
    (select_mode (travel_modes_of row.travel_methods_raw) = some TravelMode.flight →
      (∀ i, non_located (geolocator (effective_origin row) (effective_destination row) i)) →
      (process_row gmaps gd geolocator row).written = some (some 0))
    ∧ (∀ m, select_mode (travel_modes_of row.travel_methods_raw) = some m →
        m ≠ TravelMode.flight →
        (calculate_distance gmaps (effective_origin row) (effective_destination row)
            (mode_token m) 3).distance = none →
        py_lower row.destination_country = "united states".data →
        (process_row gmaps gd geolocator row).written = some none)
    ∧ (∀ m, select_mode (travel_modes_of row.travel_methods_raw) = some m →
        m ≠ TravelMode.flight →
        (calculate_distance gmaps (effective_origin row) (effective_destination row)
            (mode_token m) 3).distance = none →
        py_lower row.destination_country ≠ "united states".data →
        (∀ i, non_located (geolocator "EWR Airport, Newark, NJ".data
            (effective_destination row) i)) →
        (process_row gmaps gd geolocator row).written = some (some 0)) := by
  refine ⟨?_, ?_, ?_⟩
  · intro hsel hfail
    have hfl := calculate_flight_go_all_fail gd
      (geolocator (effective_origin row) (effective_destination row)) hfail 3 0
    simp [process_row, hdest, hmeth, hsel, calculate_flight_distance, hfl]
  · intro m hsel hm hdist hus
    simp [process_row, hdest, hmeth, hsel, hm, hdist, hus]
  · intro m hsel hm hdist hnus hewr
    have hfl := calculate_flight_go_all_fail gd
      (geolocator "EWR Airport, Newark, NJ".data (effective_destination row)) hewr 3 0
    simp [process_row, hdest, hmeth, hsel, hm, hdist, hnus, fallback_loop, new_origins,
      calculate_flight_distance, hfl]

/-- Witness for failure_asymmetry_amended: the three cases at concrete
rows and provider stubs. -/
theorem failure_asymmetry_amended_witness :
    (process_row (fun _ _ _ _ => MatrixCall.api_error) (fun _ _ => 0)
        (fun _ _ _ => FlightAttempt.geocodeMiss)
        ⟨"Binghamton".data, "NY".data, "Paris".data, "".data, "France".data,
          "flight".data⟩).written = some (some 0)
    ∧ (process_row (fun _ _ _ _ => MatrixCall.result "ZERO_RESULTS".data 0 0)
        (fun _ _ => 0) (fun _ _ _ => FlightAttempt.geocodeMiss)
        ⟨"".data, "".data, "Gotham".data, "NY".data, "United States".data,
          "car".data⟩).written = some none
    ∧ (process_row (fun _ _ _ _ => MatrixCall.result "ZERO_RESULTS".data 0 0)
        (fun _ _ => 0) (fun _ _ _ => FlightAttempt.geocodeMiss)
        ⟨"Binghamton".data, "NY".data, "Lyon".data, "".data, "France".data,
          "car".data⟩).written = some (some 0) :=
  ⟨(failure_asymmetry_amended _ _ _ _ (by decide) (by decide)).1
      (by decide) (fun _ => trivial),
    (failure_asymmetry_amended _ _ _ _ (by decide) (by decide)).2.1
      TravelMode.driving (by decide) (by decide) (by decide) (by decide),
    (failure_asymmetry_amended _ _ _ _ (by decide) (by decide)).2.2
      TravelMode.driving (by decide) (by decide) (by decide) (by decide)
      (fun _ => trivial)⟩

/-- C2 counterexample: first, a flight-mode row whose flight lookup
fails makes no fallback attempt at all (fallback_tried is empty, the
flight path returns its own sentinel 0); second, a ground-mode row with
a non-domestic destination whose fallback EWR lookup fails still stops
at EWR with value 0 - JFK is never tried, the loop does not stop at the
first success nor yield 0 only after all alternates fail. -/
theorem fallback_strategy_counterexample :
    process_row (fun _ _ _ _ => MatrixCall.api_error) (fun _ _ => 0)
        (fun _ _ _ => FlightAttempt.geocodeMiss)
        ⟨"Binghamton".data, "NY".data, "Paris".data, "".data, "France".data,
          "flight".data⟩
      = ⟨some (some 0), 0, 3, []⟩
    ∧ process_row (fun _ _ _ _ => MatrixCall.result "ZERO_RESULTS".data 0 0)
        (fun _ _ => 0) (fun _ _ _ => FlightAttempt.geocodeMiss)
        ⟨"Binghamton".data, "NY".data, "Nice".data, "".data, "France".data,
          "car".data⟩
      = ⟨some (some 0), 1, 3, ["EWR Airport, Newark, NJ".data]⟩ :=
  ⟨by decide, by decide⟩

/-- C2 amended: the fallback runs exactly when the primary ground-mode
lookup of a non-domestic destination fails (never for flight mode, which
returns its own sentinel); when it runs it always stops at the first
alternate origin EWR, recording whatever the EWR flight lookup returned
- which is the number 0, never an absent value, when that lookup fails. -/
theorem fallback_strategy_amended (gmaps : GMaps) (gd : Geodesic)
    (geolocator : GeoOracle) (row : RowInput)
    (hdest : py_strip (effective_destination row) ≠ [])
    (hmeth : py_strip row.travel_methods_raw ≠ [])
    (m : TravelMode)
    (hsel : select_mode (travel_modes_of row.travel_methods_raw) = some m) :
    ((process_row gmaps gd geolocator row).fallback_tried ≠ [] ↔
      (m ≠ TravelMode.flight
        ∧ (calculate_distance gmaps (effective_origin row) (effective_destination row)
            (mode_token m) 3).distance = none
        ∧ py_lower row.destination_country ≠ "united states".data))
    ∧ ((process_row gmaps gd geolocator row).fallback_tried ≠ [] →
        (process_row gmaps gd geolocator row).fallback_tried
          = ["EWR Airport, Newark, NJ".data]
        ∧ (process_row gmaps gd geolocator row).written
            = some (some (calculate_flight_distance gmaps gd geolocator
                "EWR Airport, Newark, NJ".data (effective_destination row) 3).distance)) := by
  by_cases hm : m = TravelMode.flight
  · have hout : process_row gmaps gd geolocator row
        = ⟨some (some (calculate_flight_distance gmaps gd geolocator
            (effective_origin row) (effective_destination row) 3).distance), 0,
            (calculate_flight_distance gmaps gd geolocator (effective_origin row)
              (effective_destination row) 3).attempts, []⟩ := by
      subst hm
      simp [process_row, hdest, hmeth, hsel]
    simp [hout, hm]
  · by_cases hcond : (calculate_distance gmaps (effective_origin row)
        (effective_destination row) (mode_token m) 3).distance = none
        ∧ py_lower row.destination_country ≠ "united states".data
    · have hout : process_row gmaps gd geolocator row
          = ⟨some (some (calculate_flight_distance gmaps gd geolocator
              "EWR Airport, Newark, NJ".data (effective_destination row) 3).distance),
              (calculate_distance gmaps (effective_origin row) (effective_destination row)
                (mode_token m) 3).attempts,
              (calculate_flight_distance gmaps gd geolocator
                "EWR Airport, Newark, NJ".data (effective_destination row) 3).attempts,
              ["EWR Airport, Newark, NJ".data]⟩ := by
        simp [process_row, hdest, hmeth, hsel, hm, hcond.1, hcond.2, fallback_loop,
          new_origins]
      simp [hout, hm, hcond.1, hcond.2]
    · have hout : process_row gmaps gd geolocator row
          = ⟨some (calculate_distance gmaps (effective_origin row)
              (effective_destination row) (mode_token m) 3).distance,
              (calculate_distance gmaps (effective_origin row) (effective_destination row)
                (mode_token m) 3).attempts, 0, []⟩ := by
        simp [process_row, hdest, hmeth, hsel, hm, hcond]
      simp [hout, hm, hcond]

/-- Witness for fallback_strategy_amended: at the ground-mode France row
with failing provider and geocoder, the fallback runs and stops at EWR. -/
theorem fallback_strategy_amended_witness :
    (process_row (fun _ _ _ _ => MatrixCall.result "ZERO_RESULTS".data 0 0)
        (fun _ _ => 0) (fun _ _ _ => FlightAttempt.geocodeMiss)
        ⟨"Binghamton".data, "NY".data, "Nice".data, "".data, "France".data,
          "car".data⟩).fallback_tried
      = ["EWR Airport, Newark, NJ".data] := by
  have h := fallback_strategy_amended
    (fun _ _ _ _ => MatrixCall.result "ZERO_RESULTS".data 0 0)
    (fun _ _ => 0) (fun _ _ _ => FlightAttempt.geocodeMiss)
    ⟨"Binghamton".data, "NY".data, "Nice".data, "".data, "France".data, "car".data⟩
    (by decide) (by decide) TravelMode.driving (by decide)
  exact (h.2 (h.1.mpr ⟨by decide, by decide, by decide⟩)).1

end CarbonTravel
